import Mathlib

/-!
Shallow embedding of the scoring and analysis core of the go-coffee DAO
AI service (`src/dao/ai-service/app/agents/bounty_matching_agent.py` and
`quality_assessment_agent.py`, with request-schema constants from
`app/models/schemas.py`).  Python floats are modelled as exact rationals;
the external collaborators (sentence-transformer embeddings, the Python
`ast` parser, regular-expression engines and wall-clock deadline parsing)
are modelled as explicit parameters, exactly at the boundary where the
source calls out to them.
-/

namespace DeveloperDao

/-- Does `pre` occur at the head of `l`? (character-list helper). -/
def charsStart : List Char → List Char → Bool
  | [], _ => true
  | _ :: _, [] => false
  | a :: as, b :: bs => a == b && charsStart as bs

/-- Does `pat` occur as a contiguous substring of `l`?  Models Python's
`pat in text` on strings. -/
def charsHasSub (pat : List Char) : List Char → Bool
  | [] => charsStart pat []
  | b :: bs => charsStart pat (b :: bs) || charsHasSub pat bs

/-- Python `pat in text` substring containment. -/
def hasSub (text pat : String) : Bool :=
  charsHasSub pat.toList text.toList

/-- Python `str.split('\n')` helper: accumulate the current line (in
reverse) and cut at every newline, keeping empty pieces. -/
def splitLinesAux : List Char → List Char → List String
  | [], acc => [String.mk acc.reverse]
  | c :: cs, acc =>
      if c = '\n' then String.mk acc.reverse :: splitLinesAux cs []
      else splitLinesAux cs (c :: acc)

/-- Python `code.split('\n')`. -/
def splitLines (s : String) : List String :=
  splitLinesAux s.toList []

/-- Python `str.strip` whitespace class (space, tab, newline, carriage
return, vertical tab, form feed). -/
def isSpaceChar (c : Char) : Bool :=
  c == ' ' || c == '\t' || c == '\n' || c == '\r' || c == '\x0b' || c == '\x0c'

/-- Python `line.strip()` on a character list. -/
def stripChars (l : List Char) : List Char :=
  ((l.dropWhile isSpaceChar).reverse.dropWhile isSpaceChar).reverse

/-- ASCII lower-casing of one character; the source only lowercases ASCII
language/level tags, so this models Python `str.lower` on its inputs. -/
def asciiLowerChar (c : Char) : Char :=
  if 'A' ≤ c ∧ c ≤ 'Z' then Char.ofNat (c.toNat + 32) else c

/-- Python `str.lower` restricted to ASCII letters. -/
def asciiLower (s : String) : String :=
  String.mk (s.toList.map asciiLowerChar)

/-- `ConfidenceLevel` enum from `app/models/schemas.py`. -/
inductive ConfidenceLevel where
  | low
  | medium
  | high
  | very_high
  deriving DecidableEq, Repr

/-- Ordinal position of a confidence tier (low = 0 … very_high = 3), used
to phrase monotonicity of tier derivation. -/
def ConfidenceLevel.ord : ConfidenceLevel → ℕ
  | .low => 0
  | .medium => 1
  | .high => 2
  | .very_high => 3

/-- Maximum of a nonempty rational list, seeded at `a`:
models `np.max` over one column of the similarity matrix. -/
def foldMax (a : ℚ) (l : List ℚ) : ℚ :=
  l.foldl max a

/-- One column maximum of the similarity matrix
(`np.max(similarity_matrix, axis=0)`): the best similarity any developer
skill achieves against required skill `r`. -/
def bestMatch (sim : String → String → ℚ) (developer_skills : List String)
    (r : String) : ℚ :=
  match developer_skills with
  | [] => 0
  | d :: ds => foldMax (sim d r) (ds.map (fun x => sim x r))

/-- `SkillMatchingTool._run` from `bounty_matching_agent.py`.
`sim d r` is the pluggable similarity collaborator: the cosine similarity
between the embeddings of developer skill `d` and required skill `r`.
Returns 0 when either list is empty; otherwise the mean over required
skills of the best similarity any developer skill achieves. -/
def SkillMatchingTool.run (sim : String → String → ℚ)
    (developer_skills required_skills : List String) : ℚ :=
  if developer_skills.isEmpty || required_skills.isEmpty then 0
  else
    let best_matches := required_skills.map (bestMatch sim developer_skills)
    best_matches.sum / (best_matches.length : ℚ)

/-- `experience_levels` lookup from `ExperienceMatchingTool._run`;
unrecognized labels default to 2 (`dict.get(..., 2)`). -/
def experience_levels (s : String) : ℕ :=
  if s = "junior" then 1
  else if s = "mid" then 2
  else if s = "senior" then 3
  else if s = "expert" then 4
  else 2

/-- `difficulty_levels` lookup from `ExperienceMatchingTool._run`;
unrecognized labels default to 2. -/
def difficulty_levels (s : String) : ℕ :=
  if s = "easy" then 1
  else if s = "medium" then 2
  else if s = "hard" then 3
  else if s = "expert" then 4
  else 2

/-- `ExperienceMatchingTool._run` from `bounty_matching_agent.py`. -/
def ExperienceMatchingTool.run (developer_experience bounty_difficulty : String)
    (reputation_score : ℚ) : ℚ :=
  let dev_level := experience_levels (asciiLower developer_experience)
  let bounty_level := difficulty_levels (asciiLower bounty_difficulty)
  let level_diff : ℕ := max dev_level bounty_level - min dev_level bounty_level
  let base_score : ℚ := max 0 (1 - (level_diff : ℚ) * 0.25)
  let reputation_factor : ℚ := min 1 (reputation_score / 10)
  base_score * (0.7 + 0.3 * reputation_factor)

/-- Python truthiness test `not x` on an `Optional[int]`:
true exactly for `None` and `0`. -/
def optFalsy (o : Option ℤ) : Bool :=
  o.getD 0 == 0

/-- `AvailabilityMatchingTool._run` from `bounty_matching_agent.py`.
`days_until_deadline` stands for the collaborator-computed
`(deadline_date - utcnow).days` (30 when deadline parsing fails). -/
def AvailabilityMatchingTool.run (developer_hours estimated_hours : Option ℤ)
    (days_until_deadline : ℤ) (active_bounties : ℤ) : ℚ :=
  if optFalsy developer_hours || optFalsy estimated_hours then 0.5
  else
    let weeks_available : ℚ := max 1 ((days_until_deadline : ℚ) / 7)
    let required_hours_per_week : ℚ := (estimated_hours.getD 0 : ℚ) / weeks_available
    let workload_factor : ℚ := max 0.1 (1 - (active_bounties : ℚ) * 0.2)
    let available_hours_per_week : ℚ := (developer_hours.getD 0 : ℚ) * workload_factor
    if required_hours_per_week ≤ available_hours_per_week then
      min 1 (available_hours_per_week / required_hours_per_week)
    else
      max 0 (available_hours_per_week / required_hours_per_week)

/-- `BountyMatchingAgent._calculate_success_probability`:
`min(1, compatibility * (0.5 + 0.3*success_rate + 0.2*min(1, reputation/10)))`. -/
def calculate_success_probability (success_rate reputation_score compatibility_score : ℚ) : ℚ :=
  let base_prob := compatibility_score
  let success_factor := success_rate
  let reputation_factor : ℚ := min 1 (reputation_score / 10)
  min 1 (base_prob * (0.5 + 0.3 * success_factor + 0.2 * reputation_factor))

/-- `BountyMatchingAgent._determine_confidence_level` (match path):
average the two scores and band at 0.8 / 0.65 / 0.5. -/
def determine_confidence_level (compatibility_score success_probability : ℚ) : ConfidenceLevel :=
  let avg_score := (compatibility_score + success_probability) / 2
  if avg_score ≥ 0.8 then .very_high
  else if avg_score ≥ 0.65 then .high
  else if avg_score ≥ 0.5 then .medium
  else .low

/-- `BountyMatchingAgent._generate_explanation`: four template fragments,
one per dimension, appended in order and joined with single spaces. -/
def generate_explanation (skill_score experience_score availability_score
    compatibility_score : ℚ) : String :=
  let explanation_parts : List String := []
  let explanation_parts := explanation_parts ++
    [if skill_score ≥ 0.8 then
        "Excellent skill match with strong expertise in required technologies."
      else if skill_score ≥ 0.6 then
        "Good skill alignment with most required technologies covered."
      else
        "Partial skill match - may require additional learning or collaboration."]
  let explanation_parts := explanation_parts ++
    [if experience_score ≥ 0.8 then
        "Experience level perfectly matches bounty difficulty."
      else if experience_score ≥ 0.6 then
        "Suitable experience level for this bounty complexity."
      else
        "Experience level may not fully align with bounty requirements."]
  let explanation_parts := explanation_parts ++
    [if availability_score ≥ 0.8 then
        "Excellent availability to meet project timeline."
      else if availability_score ≥ 0.6 then
        "Adequate availability with manageable timeline."
      else
        "Limited availability may require timeline adjustments."]
  let explanation_parts := explanation_parts ++
    [if compatibility_score ≥ 0.8 then
        "Highly recommended match with strong success potential."
      else if compatibility_score ≥ 0.6 then
        "Good match with reasonable success probability."
      else
        "Consider alternative matches or provide additional support."]
  String.intercalate " " explanation_parts

/-- Per-dimension fragment selectors, written out separately so the
synthesizer's output can be characterized dimension by dimension. -/
def skillFragment (s : ℚ) : String :=
  if s ≥ 0.8 then "Excellent skill match with strong expertise in required technologies."
  else if s ≥ 0.6 then "Good skill alignment with most required technologies covered."
  else "Partial skill match - may require additional learning or collaboration."

/-- Experience fragment selector of `_generate_explanation`. -/
def experienceFragment (s : ℚ) : String :=
  if s ≥ 0.8 then "Experience level perfectly matches bounty difficulty."
  else if s ≥ 0.6 then "Suitable experience level for this bounty complexity."
  else "Experience level may not fully align with bounty requirements."

/-- Availability fragment selector of `_generate_explanation`. -/
def availabilityFragment (s : ℚ) : String :=
  if s ≥ 0.8 then "Excellent availability to meet project timeline."
  else if s ≥ 0.6 then "Adequate availability with manageable timeline."
  else "Limited availability may require timeline adjustments."

/-- Overall-assessment fragment selector of `_generate_explanation`. -/
def overallFragment (s : ℚ) : String :=
  if s ≥ 0.8 then "Highly recommended match with strong success potential."
  else if s ≥ 0.6 then "Good match with reasonable success probability."
  else "Consider alternative matches or provide additional support."

/-- The fields of a `BountyMatch` (schemas.py) that the ranking engine
reads or that identify a candidate; the remaining report fields do not
influence filtering, sorting or truncation. -/
structure MatchEntry where
  developer_address : String
  bounty_id : ℤ
  compatibility_score : ℚ
  deriving DecidableEq, Repr

/-- Descending comparison on compatibility score, the key order used by
`matches.sort(key=lambda x: x.compatibility_score, reverse=True)`. -/
def scoreGE (x y : MatchEntry) : Prop :=
  y.compatibility_score ≤ x.compatibility_score

instance : DecidableRel scoreGE := fun x y =>
  inferInstanceAs (Decidable (y.compatibility_score ≤ x.compatibility_score))

instance : IsTotal MatchEntry scoreGE :=
  ⟨fun x y => le_total y.compatibility_score x.compatibility_score⟩

instance : IsTrans MatchEntry scoreGE :=
  ⟨fun _ _ _ h h2 => le_trans h2 h⟩

/-- Python `list.sort(key=..., reverse=True)` is a stable descending
sort; modelled as insertion sort under `scoreGE`, which is stable. -/
def sortMatchesDesc (l : List MatchEntry) : List MatchEntry :=
  l.insertionSort scoreGE

/-- The filter–sort–truncate pipeline shared by
`BountyMatchingAgent._find_developers_for_bounty` and
`_find_bounties_for_developer`: the candidate pool is scored upstream,
then matches with `compatibility_score >= min_score` are retained, sorted
descending by compatibility score (stable) and cut to `limit`. -/
def rankCandidates (pool : List MatchEntry) (min_score : ℚ) (limit : ℕ) : List MatchEntry :=
  let kept := pool.filter (fun m => min_score ≤ m.compatibility_score)
  (sortMatchesDesc kept).take limit

/-- `BountyMatchRequest.limit` default from schemas.py (`default=10`). -/
def BountyMatchRequest.limitDefault : ℤ := 10

/-- `BountyMatchRequest.min_compatibility_score` default from schemas.py
(`default=0.5`). -/
def BountyMatchRequest.minScoreDefault : ℚ := 0.5

/-- `BountyMatchRequest.limit` validation from schemas.py
(`Field(ge=1, le=50)`): accepted limits. -/
def BountyMatchRequest.limitValid (l : ℤ) : Prop :=
  1 ≤ l ∧ l ≤ 50

/-- A quality issue record as emitted by the analysis tools
(type / severity / description / optional line number). -/
structure QIssue where
  itype : String
  severity : String
  description : String
  line_number : Option ℕ := none
  deriving DecidableEq, Repr

/-- Result shape of `CodeAnalysisTool._analyze_python_code`. -/
structure PyAnalysis where
  complexity_score : ℚ
  issues : List QIssue
  lines_of_code : ℕ
  security_issues : ℕ
  style_issues : ℕ
  performance_issues : ℕ
  deriving Repr

/-- Outcome of the external `ast.parse` collaborator: either a successful
parse summarized by the number of branching constructs found by
`ast.walk` (If/While/For/AsyncFor, ExceptHandler, And/Or), or a failure
carrying the exception's line number and message. -/
inductive PyParseOutcome where
  | ok (branch_count : ℕ)
  | failed (lineno : ℕ) (msg : String)

/-- `CodeAnalysisTool._calculate_complexity` after the walk:
base 1 plus branch count, normalized by `min(10, complexity / 5)`. -/
def calculate_complexity (branch_count : ℕ) : ℚ :=
  min 10 ((1 + (branch_count : ℚ)) / 5)

/-- The dynamic-evaluation issue emitted for `"eval(" in code`. -/
def evalIssue : QIssue :=
  { itype := "security", severity := "high",
    description := "Use of eval() function detected - security risk" }

/-- The dynamic-execution issue emitted for `"exec(" in code`. -/
def execIssue : QIssue :=
  { itype := "security", severity := "high",
    description := "Use of exec() function detected - security risk" }

/-- The injection issue emitted when the query-execution regex matches. -/
def sqlInjectionIssue : QIssue :=
  { itype := "security", severity := "critical",
    description := "Potential SQL injection vulnerability" }

/-- The hardcoded-secret issue emitted when the secret-assignment regex
matches. -/
def hardcodedSecretIssue : QIssue :=
  { itype := "security", severity := "medium",
    description := "Potential hardcoded secret detected" }

/-- The critical issue emitted when `ast.parse` raises `SyntaxError`. -/
def syntaxIssue (lineno : ℕ) (msg : String) : QIssue :=
  { itype := "syntax", severity := "critical",
    description := "Syntax error: " ++ msg, line_number := some lineno }

/-- `CodeAnalysisTool._analyze_python_code`.  `parse` is the outcome of
the external `ast.parse`; `sql_match` and `secret_match` are the outcomes
of the two `re.search` collaborator calls on the raw text (the injection
and hardcoded-secret regexes).  The two plain substring checks
(`"eval(" in code`, `"exec(" in code`) are modelled concretely.  All
pattern checks sit inside the `try` block after `ast.parse`, so a parse
failure skips them and yields only the syntax issue with complexity 10. -/
def analyze_python_code (code : String) (parse : PyParseOutcome)
    (sql_match secret_match : Bool) : PyAnalysis :=
  let issues : List QIssue :=
    match parse with
    | .ok _ =>
        (if hasSub code "eval(" then [evalIssue] else []) ++
        (if hasSub code "exec(" then [execIssue] else []) ++
        (if sql_match then [sqlInjectionIssue] else []) ++
        (if secret_match then [hardcodedSecretIssue] else [])
    | .failed lineno msg => [syntaxIssue lineno msg]
  let complexity : ℚ :=
    match parse with
    | .ok branch_count => calculate_complexity branch_count
    | .failed _ _ => 10
  { complexity_score := complexity,
    issues := issues,
    lines_of_code := (splitLines code).length,
    security_issues := (issues.filter (fun i => i.itype == "security")).length,
    style_issues := 0,
    performance_issues := 0 }

/-- The single-quote character, written by code point to keep source
files free of quote-escaping noise. -/
def singleQuote : Char := Char.ofNat 39

/-- Python triple single-quote docstring delimiter. -/
def tripleSingleQuote : String := String.mk [singleQuote, singleQuote, singleQuote]

/-- One step of the `_calculate_comment_ratio` loop: is this stripped
line counted as a comment line (`startswith` on the three markers)? -/
def isCommentLine (stripped : List Char) : Bool :=
  charsStart "#".toList stripped ||
  charsStart "//".toList stripped ||
  charsStart "/*".toList stripped

/-- Does the stripped line contain a triple-quote docstring delimiter? -/
def hasDocstringDelim (stripped : List Char) : Bool :=
  charsHasSub "\"\"\"".toList stripped ||
  charsHasSub tripleSingleQuote.toList stripped

/-- Classification of a raw line by the `_calculate_comment_ratio` loop:
blank lines are skipped, comment-marked or docstring-marked lines count
as comments, everything else counts as code. -/
inductive LineKind where
  | blank
  | comment
  | code
  deriving DecidableEq, Repr

/-- The per-line branch of `DocumentationAnalysisTool._calculate_comment_ratio`. -/
def classifyLine (line : String) : LineKind :=
  let stripped := stripChars line.toList
  if stripped.isEmpty then .blank
  else if isCommentLine stripped then .comment
  else if hasDocstringDelim stripped then .comment
  else .code

/-- One iteration of the `_calculate_comment_ratio` loop acting on the
`(comment_lines, code_lines)` accumulator. -/
def commentStep (acc : ℕ × ℕ) (line : String) : ℕ × ℕ :=
  match classifyLine line with
  | .blank => acc
  | .comment => (acc.1 + 1, acc.2)
  | .code => (acc.1, acc.2 + 1)

/-- `DocumentationAnalysisTool._calculate_comment_ratio`, with the source
text already split on newlines (`code.split('\n')`).  Counts comment and
code lines with the loop above; returns 0 when `code_lines == 0`, else
`comment_lines / (comment_lines + code_lines)`. -/
def calculate_comment_ratio (lines : List String) : ℚ :=
  let counts := lines.foldl commentStep (0, 0)
  let comment_lines := counts.1
  let code_lines := counts.2
  if code_lines = 0 then 0
  else (comment_lines : ℚ) / ((comment_lines : ℚ) + (code_lines : ℚ))

/-- `_calculate_comment_ratio` on a raw source text. -/
def calculate_comment_ratio_of (code : String) : ℚ :=
  calculate_comment_ratio (splitLines code)

/-- `DocumentationAnalysisTool._analyze_readme`: additive keyword scoring
of the README text, capped at 100. -/
def analyze_readme (readme : String) : ℚ :=
  if readme = "" then 0
  else
    let lower := asciiLower readme
    let score : ℚ :=
      (if hasSub lower "installation" || hasSub lower "setup" then 20 else 0) +
      (if hasSub lower "usage" || hasSub lower "example" then 20 else 0) +
      (if hasSub lower "api" || hasSub lower "documentation" then 15 else 0) +
      (if hasSub lower "contributing" then 10 else 0) +
      (if hasSub lower "license" then 10 else 0) +
      (if hasSub lower "test" then 10 else 0) +
      (if readme.length > 500 then 15 else 0)
    min 100 score

/-- The medium-severity documentation issue emitted by
`DocumentationAnalysisTool._run` when the comment ratio is below 0.1. -/
def lowCommentIssue : QIssue :=
  { itype := "documentation", severity := "medium",
    description := "Low comment ratio detected" }

/-- Result shape of `DocumentationAnalysisTool._run`. -/
structure DocAnalysis where
  documentation_score : ℚ
  comment_ratio : ℚ
  readme_score : ℚ
  issues : List QIssue
  deriving Repr

/-- `DocumentationAnalysisTool._run` (source lines already split). -/
def documentation_run (lines : List String) (readme : String) : DocAnalysis :=
  let comment_ratio := calculate_comment_ratio lines
  let issues : List QIssue := if comment_ratio < 0.1 then [lowCommentIssue] else []
  let readme_score := analyze_readme readme
  let doc_score := comment_ratio * 50 + readme_score * 50
  { documentation_score := min 100 doc_score,
    comment_ratio := comment_ratio,
    readme_score := readme_score,
    issues := issues }

/-- `CodeQualityMetrics` from schemas.py (rationals on the 0–100 scale). -/
structure CodeQualityMetrics where
  overall_score : ℚ
  security_score : ℚ
  performance_score : ℚ
  maintainability_score : ℚ
  documentation_score : ℚ
  test_coverage_score : ℚ
  deriving Repr

/-- `QualityAssessmentAgent._calculate_quality_metrics`.  The inputs are
the dictionary fields it reads, as options to model `dict.get` with its
defaults (`security_issues`/`style_issues` default 0, `complexity_score`
default 5, `documentation_score` default 50). -/
def calculate_quality_metrics (security_issues style_issues : Option ℕ)
    (complexity_score documentation_score : Option ℚ) : CodeQualityMetrics :=
  let security_issues : ℚ := (security_issues.getD 0 : ℕ)
  let security_score : ℚ := max 0 (100 - security_issues * 20)
  let complexity : ℚ := complexity_score.getD 5
  let performance_score : ℚ := max 0 (100 - complexity * 10)
  let style_issues : ℚ := (style_issues.getD 0 : ℕ)
  let maintainability_score : ℚ := max 0 (100 - complexity * 8 - style_issues * 5)
  let documentation_score : ℚ := documentation_score.getD 50
  let test_coverage_score : ℚ := 70
  let overall_score : ℚ :=
    security_score * 0.25 +
    performance_score * 0.20 +
    maintainability_score * 0.20 +
    documentation_score * 0.20 +
    test_coverage_score * 0.15
  { overall_score := overall_score,
    security_score := security_score,
    performance_score := performance_score,
    maintainability_score := maintainability_score,
    documentation_score := documentation_score,
    test_coverage_score := test_coverage_score }

/-- Depth factor of `QualityAssessmentAgent._determine_confidence_level`:
1.0 for at least 10 files, 0.9 for at least 5, else 0.8. -/
def depthFactor (file_count : ℕ) : ℚ :=
  if file_count ≥ 10 then 1
  else if file_count ≥ 5 then 0.9
  else 0.8

/-- `QualityAssessmentAgent._determine_confidence_level` (quality path):
multiply the overall score by the depth factor and band at 85 / 70 / 55. -/
def quality_confidence_level (overall_score : ℚ) (file_count : ℕ) : ConfidenceLevel :=
  let adjusted_score := overall_score * depthFactor file_count
  if adjusted_score ≥ 85 then .very_high
  else if adjusted_score ≥ 70 then .high
  else if adjusted_score ≥ 55 then .medium
  else .low

/-- The shared banding shape of both `_determine_confidence_level`
methods: three descending thresholds cut the score line into the four
tiers. -/
def bandAt (x t_vh t_h t_m : ℚ) : ConfidenceLevel :=
  if x ≥ t_vh then .very_high
  else if x ≥ t_h then .high
  else if x ≥ t_m then .medium
  else .low

/-- Experience score as a function of the absolute ordinal level gap,
used to phrase monotonicity in the level difference. -/
def experience_score_of_diff (d : ℕ) (reputation_score : ℚ) : ℚ :=
  max 0 (1 - (d : ℚ) * 0.25) * (0.7 + 0.3 * min 1 (reputation_score / 10))

/-- Comment ratio as the specification sentence words it: comment lines
over all non-blank lines, with the zero guard applying exactly when there
are no non-blank lines at all.  Stated for comparison against
`calculate_comment_ratio`, which is translated from the source. -/
def commentRatioSpec (lines : List String) : ℚ :=
  let comment_lines := lines.countP (fun l => classifyLine l == .comment)
  let code_lines := lines.countP (fun l => classifyLine l == .code)
  if comment_lines + code_lines = 0 then 0
  else (comment_lines : ℚ) / ((comment_lines : ℚ) + (code_lines : ℚ))

/-! ## Helper lemmas -/

theorem self_le_foldMax (a : ℚ) (l : List ℚ) : a ≤ foldMax a l := by
  induction l generalizing a with
  | nil => exact le_refl a
  | cons x xs ih =>
      calc a ≤ max a x := le_max_left a x
        _ ≤ foldMax (max a x) xs := ih (max a x)
        _ = foldMax a (x :: xs) := rfl

theorem foldMax_le {b : ℚ} (a : ℚ) (l : List ℚ) (ha : a ≤ b)
    (hl : ∀ x ∈ l, x ≤ b) : foldMax a l ≤ b := by
  induction l generalizing a with
  | nil => exact ha
  | cons x xs ih =>
      have hx : x ≤ b := hl x (List.mem_cons_self x xs)
      exact ih (max a x) (max_le ha hx) (fun y hy => hl y (List.mem_cons_of_mem x hy))

theorem experience_run_eq_of_diff (dev diff : String) (rep : ℚ) :
    ExperienceMatchingTool.run dev diff rep =
      experience_score_of_diff
        (max (experience_levels (asciiLower dev)) (difficulty_levels (asciiLower diff)) -
          min (experience_levels (asciiLower dev)) (difficulty_levels (asciiLower diff)))
        rep := rfl

/-! ## Claim theorems -/

/-- C3 counterexample: at equal ordinal levels ("junior" vs "easy", both
level 1) and reputation 0 the experience score is 0.7, not 1.0, so the
score at equal levels does depend on reputation. -/
theorem experience_equal_levels_counterexample :
    ExperienceMatchingTool.run "junior" "easy" 0 = 0.7 ∧ (0.7 : ℚ) ≠ 1 := by
  constructor
  · have h1 : experience_levels (asciiLower "junior") = 1 := rfl
    have h2 : difficulty_levels (asciiLower "easy") = 1 := rfl
    simp only [ExperienceMatchingTool.run, h1, h2]
    norm_num
  · norm_num

/-- C3 (amended): for equal ordinal levels the base score is maximal and
the returned experience score is `0.7 + 0.3·min(1, reputation/10)`, which
equals 1.0 exactly when reputation_score ≥ 10 (not regardless of
reputation); for every fixed reputation_score ≥ 0 the score is strictly
decreasing in the absolute level difference over 0, 1, 2, 3. -/
theorem experience_match_amended (dev diff : String) (rep : ℚ) (hrep : 0 ≤ rep) :
    (experience_levels (asciiLower dev) = difficulty_levels (asciiLower diff) →
        ExperienceMatchingTool.run dev diff rep = 0.7 + 0.3 * min 1 (rep / 10) ∧
        (ExperienceMatchingTool.run dev diff rep = 1 ↔ 10 ≤ rep)) ∧
    (∀ d1 d2 : ℕ, d1 < d2 → d2 ≤ 3 →
        experience_score_of_diff d2 rep < experience_score_of_diff d1 rep) := by
  have hm0 : 0 ≤ min 1 (rep / 10) := le_min (by norm_num) (by positivity)
  have hm1 : min 1 (rep / 10) ≤ 1 := min_le_left _ _
  constructor
  · intro heq
    have hrun : ExperienceMatchingTool.run dev diff rep = experience_score_of_diff 0 rep := by
      rw [experience_run_eq_of_diff, heq, max_self, min_self, Nat.sub_self]
    have h0 : experience_score_of_diff 0 rep = 0.7 + 0.3 * min 1 (rep / 10) := by
      unfold experience_score_of_diff
      norm_num
    refine ⟨hrun.trans h0, ?_⟩
    rw [hrun, h0]
    constructor
    · intro h
      have hmin : min 1 (rep / 10) = 1 := by linarith
      have h1 : (1 : ℚ) ≤ rep / 10 := min_eq_left_iff.mp hmin
      have h10 : (1 : ℚ) * 10 ≤ rep := (le_div_iff₀ (by norm_num : (0:ℚ) < 10)).mp h1
      linarith
    · intro h
      have : (1 : ℚ) ≤ rep / 10 := by
        rw [le_div_iff₀ (by norm_num : (0:ℚ) < 10)]
        linarith
      rw [min_eq_left this]
      norm_num
  · intro d1 d2 hlt hle
    have hF : (0 : ℚ) < 0.7 + 0.3 * min 1 (rep / 10) := by linarith
    have hc : ((d1 : ℚ)) < (d2 : ℚ) := by exact_mod_cast hlt
    have hd2 : ((d2 : ℚ)) ≤ 3 := by exact_mod_cast hle
    have hb2 : (0 : ℚ) ≤ 1 - (d2 : ℚ) * 0.25 := by linarith
    have hb1 : (0 : ℚ) ≤ 1 - (d1 : ℚ) * 0.25 := by linarith
    unfold experience_score_of_diff
    rw [max_eq_right hb2, max_eq_right hb1]
    have : (1 : ℚ) - (d2 : ℚ) * 0.25 < 1 - (d1 : ℚ) * 0.25 := by linarith
    exact mul_lt_mul_of_pos_right this hF

/-- C3 witness: at reputation 5 with equal levels the score is
`0.7 + 0.3·min(1, 1/2)`, and a level gap of 2 scores strictly below a
gap of 1. -/
theorem experience_match_witness :
    ExperienceMatchingTool.run "junior" "easy" 5 = 0.7 + 0.3 * min 1 (5 / 10 : ℚ) ∧
    experience_score_of_diff 2 5 < experience_score_of_diff 1 5 := by
  have h := experience_match_amended "junior" "easy" 5 (by norm_num)
  exact ⟨(h.1 (by rfl)).1, h.2 1 2 (by norm_num) (by norm_num)⟩

/-- C6 counterexample: at success rate 0, reputation 0 and compatibility
−1 the success probability is −1/2, which is strictly greater than the
compatibility score, so "success_probability never exceeds
compatibility_score" fails for a negative compatibility score. -/
theorem success_probability_counterexample :
    calculate_success_probability 0 0 (-1) = -(1 / 2) ∧
    ¬ calculate_success_probability 0 0 (-1) ≤ -1 := by
  have h : calculate_success_probability 0 0 (-1) = -(1 / 2) := by
    simp only [calculate_success_probability]
    norm_num
  exact ⟨h, by rw [h]; norm_num⟩

/-- C6 (amended): for success_rate ∈ [0,1], reputation_score ≥ 0 and
compatibility_score ≥ 0, the success probability equals
`min(1, compatibility·(0.5 + 0.3·success_rate + 0.2·min(1, reputation/10)))`
and never exceeds the compatibility score. -/
theorem success_probability_amended (success_rate reputation_score compatibility_score : ℚ)
    (h1 : 0 ≤ success_rate) (h2 : success_rate ≤ 1) (h3 : 0 ≤ reputation_score)
    (h4 : 0 ≤ compatibility_score) :
    calculate_success_probability success_rate reputation_score compatibility_score =
      min 1 (compatibility_score *
        (0.5 + 0.3 * success_rate + 0.2 * min 1 (reputation_score / 10))) ∧
    calculate_success_probability success_rate reputation_score compatibility_score ≤
      compatibility_score := by
  refine ⟨rfl, ?_⟩
  have hm0 : 0 ≤ min 1 (reputation_score / 10) := le_min (by norm_num) (by positivity)
  have hm1 : min 1 (reputation_score / 10) ≤ 1 := min_le_left _ _
  have hf : 0.5 + 0.3 * success_rate + 0.2 * min 1 (reputation_score / 10) ≤ 1 := by
    linarith
  calc calculate_success_probability success_rate reputation_score compatibility_score
      ≤ compatibility_score *
          (0.5 + 0.3 * success_rate + 0.2 * min 1 (reputation_score / 10)) :=
        min_le_right _ _
    _ ≤ compatibility_score := mul_le_of_le_one_right h4 hf

/-- C6 witness: a concrete in-range instance of the amended statement. -/
theorem success_probability_witness :
    calculate_success_probability 0.9 8 0.6 ≤ 0.6 :=
  (success_probability_amended 0.9 8 0.6 (by norm_num) (by norm_num) (by norm_num)
    (by norm_num)).2

/-- C7 counterexample: with the all-zero similarity function the score on
the non-empty lists ["a"] and ["b"] is 0, so a zero score does not imply
that one of the lists is empty — "score is 0 iff either list is empty"
fails in the only-if direction. -/
theorem skill_match_counterexample :
    SkillMatchingTool.run (fun _ _ => 0) ["a"] ["b"] = 0 ∧
    (["a"] : List String) ≠ [] ∧ (["b"] : List String) ≠ [] := by
  refine ⟨?_, by simp, by simp⟩
  simp [SkillMatchingTool.run, bestMatch, foldMax]

/-- C7 (amended): the skill score is 0 when either list is empty; for
non-empty lists it is the mean over required skills of the best
per-requirement similarity, and it lies in [0,1] whenever the pluggable
similarity function only produces values in [0,1] (it can also be 0 for
non-empty lists, e.g. when all similarities vanish). -/
theorem skill_match_amended (sim : String → String → ℚ)
    (developer_skills required_skills : List String)
    (hsim : ∀ d r, 0 ≤ sim d r ∧ sim d r ≤ 1) :
    (0 ≤ SkillMatchingTool.run sim developer_skills required_skills ∧
      SkillMatchingTool.run sim developer_skills required_skills ≤ 1) ∧
    (developer_skills = [] ∨ required_skills = [] →
      SkillMatchingTool.run sim developer_skills required_skills = 0) ∧
    (developer_skills ≠ [] → required_skills ≠ [] →
      SkillMatchingTool.run sim developer_skills required_skills =
        (required_skills.map (bestMatch sim developer_skills)).sum /
          (required_skills.length : ℚ)) := by
  have hempty : ∀ l : List String, l.isEmpty = true ↔ l = [] := by
    intro l
    cases l <;> simp
  by_cases hd : developer_skills = []
  · refine ⟨?_, fun _ => ?_, fun h _ => absurd hd h⟩ <;>
      simp [SkillMatchingTool.run, hd]
  by_cases hr : required_skills = []
  · refine ⟨?_, fun _ => ?_, fun _ h => absurd hr h⟩ <;>
      simp [SkillMatchingTool.run, hr]
  have hcond : (developer_skills.isEmpty || required_skills.isEmpty) = false := by
    rw [Bool.or_eq_false_iff]
    constructor <;> rw [Bool.eq_false_iff]
    · intro h
      exact hd ((hempty _).mp h)
    · intro h
      exact hr ((hempty _).mp h)
  have hrun : SkillMatchingTool.run sim developer_skills required_skills =
      (required_skills.map (bestMatch sim developer_skills)).sum /
        ((required_skills.map (bestMatch sim developer_skills)).length : ℚ) := by
    simp only [SkillMatchingTool.run, hcond]
    rfl
  have hlen : (required_skills.map (bestMatch sim developer_skills)).length =
      required_skills.length := List.length_map _ _
  have hmem0 : ∀ x ∈ required_skills.map (bestMatch sim developer_skills), 0 ≤ x := by
    intro x hx
    obtain ⟨r, _, hrx⟩ := List.mem_map.mp hx
    subst hrx
    cases developer_skills with
    | nil => exact absurd rfl hd
    | cons d ds =>
        calc (0 : ℚ) ≤ sim d r := (hsim d r).1
          _ ≤ bestMatch sim (d :: ds) r := self_le_foldMax _ _
  have hmem1 : ∀ x ∈ required_skills.map (bestMatch sim developer_skills), x ≤ 1 := by
    intro x hx
    obtain ⟨r, _, hrx⟩ := List.mem_map.mp hx
    subst hrx
    cases developer_skills with
    | nil => exact absurd rfl hd
    | cons d ds =>
        refine foldMax_le _ _ (hsim d r).2 ?_
        intro y hy
        obtain ⟨z, _, hzy⟩ := List.mem_map.mp hy
        subst hzy
        exact (hsim z r).2
  have hpos : (0 : ℚ) < ((required_skills.map (bestMatch sim developer_skills)).length : ℚ) := by
    rw [hlen]
    have : 0 < required_skills.length := List.length_pos.mpr hr
    exact_mod_cast this
  refine ⟨⟨?_, ?_⟩, fun h => ?_, fun _ _ => ?_⟩
  · rw [hrun]
    exact div_nonneg (List.sum_nonneg hmem0) hpos.le
  · rw [hrun, div_le_one hpos]
    calc (required_skills.map (bestMatch sim developer_skills)).sum
        ≤ (required_skills.map (bestMatch sim developer_skills)).length • (1 : ℚ) :=
          List.sum_le_card_nsmul _ _ hmem1
      _ = ((required_skills.map (bestMatch sim developer_skills)).length : ℚ) := by
          simp
  · rcases h with h | h
    · exact absurd h hd
    · exact absurd h hr
  · rw [hrun, hlen]

/-- C7 witness: a concrete similarity function with values in [0,1] on
concrete non-empty lists keeps the score inside [0,1]. -/
theorem skill_match_witness :
    0 ≤ SkillMatchingTool.run (fun _ _ => 1 / 2) ["a"] ["b"] ∧
    SkillMatchingTool.run (fun _ _ => 1 / 2) ["a"] ["b"] ≤ 1 :=
  (skill_match_amended (fun _ _ => 1 / 2) ["a"] ["b"]
    (fun _ _ => ⟨by norm_num, by norm_num⟩)).1

theorem bandAt_mono {t_vh t_h t_m x y : ℚ} (hxy : x ≤ y) :
    (bandAt x t_vh t_h t_m).ord ≤ (bandAt y t_vh t_h t_m).ord := by
  unfold bandAt
  split_ifs <;> simp_all [ConfidenceLevel.ord] <;> linarith

theorem bandAt_very_high_iff {t_vh t_h t_m x : ℚ} (h1 : t_m ≤ t_h) (h2 : t_h ≤ t_vh) :
    bandAt x t_vh t_h t_m = .very_high ↔ t_vh ≤ x := by
  unfold bandAt
  split_ifs <;> simp_all

theorem bandAt_high_iff {t_vh t_h t_m x : ℚ} (h1 : t_m ≤ t_h) (h2 : t_h ≤ t_vh) :
    bandAt x t_vh t_h t_m = .high ↔ t_h ≤ x ∧ x < t_vh := by
  unfold bandAt
  split_ifs <;> simp_all <;> intros <;> linarith

theorem bandAt_medium_iff {t_vh t_h t_m x : ℚ} (h1 : t_m ≤ t_h) (h2 : t_h ≤ t_vh) :
    bandAt x t_vh t_h t_m = .medium ↔ t_m ≤ x ∧ x < t_h := by
  unfold bandAt
  split_ifs <;> simp_all <;> intros <;> linarith

theorem bandAt_low_iff {t_vh t_h t_m x : ℚ} (h1 : t_m ≤ t_h) (h2 : t_h ≤ t_vh) :
    bandAt x t_vh t_h t_m = .low ↔ x < t_m := by
  unfold bandAt
  split_ifs <;> simp_all <;> intros <;> linarith

theorem tierSel_hi {x : ℚ} (hi mid lo : String) (h : 0.8 ≤ x) :
    (if x ≥ 0.8 then hi else if x ≥ 0.6 then mid else lo) = hi := if_pos h

theorem tierSel_mid {x : ℚ} (hi mid lo : String) (h1 : 0.6 ≤ x) (h2 : x < 0.8) :
    (if x ≥ 0.8 then hi else if x ≥ 0.6 then mid else lo) = mid := by
  rw [if_neg (not_le.mpr h2), if_pos h1]

theorem tierSel_lo {x : ℚ} (hi mid lo : String) (h : x < 0.6) :
    (if x ≥ 0.8 then hi else if x ≥ 0.6 then mid else lo) = lo := by
  rw [if_neg (not_le.mpr (lt_of_lt_of_le h (by norm_num))), if_neg (not_le.mpr h)]

theorem determine_confidence_level_eq_bandAt (c s : ℚ) :
    determine_confidence_level c s = bandAt ((c + s) / 2) 0.8 0.65 0.5 := rfl

theorem quality_confidence_level_eq_bandAt (q : ℚ) (n : ℕ) :
    quality_confidence_level q n = bandAt (q * depthFactor n) 85 70 55 := rfl

/-- C8: both confidence-tier derivations band their input — the averaged
pair of scores on the match path, the depth-adjusted overall score on the
quality path — at the fixed thresholds 0.8/0.65/0.5 (match) and 85/70/55
(quality, with depth factor 1.0 for ≥10 files, 0.9 for ≥5, else 0.8),
and the resulting tier ordinal is monotone: a larger averaged or
depth-adjusted input never yields a strictly lower tier. -/
theorem confidence_tier_spec (c s c2 s2 q q2 : ℚ) (n : ℕ) :
    ((c + s) / 2 ≤ (c2 + s2) / 2 →
      (determine_confidence_level c s).ord ≤ (determine_confidence_level c2 s2).ord) ∧
    (q * depthFactor n ≤ q2 * depthFactor n →
      (quality_confidence_level q n).ord ≤ (quality_confidence_level q2 n).ord) ∧
    (determine_confidence_level c s = .very_high ↔ 0.8 ≤ (c + s) / 2) ∧
    (determine_confidence_level c s = .high ↔ 0.65 ≤ (c + s) / 2 ∧ (c + s) / 2 < 0.8) ∧
    (determine_confidence_level c s = .medium ↔ 0.5 ≤ (c + s) / 2 ∧ (c + s) / 2 < 0.65) ∧
    (determine_confidence_level c s = .low ↔ (c + s) / 2 < 0.5) ∧
    (quality_confidence_level q n = .very_high ↔ 85 ≤ q * depthFactor n) ∧
    (quality_confidence_level q n = .high ↔ 70 ≤ q * depthFactor n ∧ q * depthFactor n < 85) ∧
    (quality_confidence_level q n = .medium ↔ 55 ≤ q * depthFactor n ∧ q * depthFactor n < 70) ∧
    (quality_confidence_level q n = .low ↔ q * depthFactor n < 55) ∧
    depthFactor n = (if n ≥ 10 then 1 else if n ≥ 5 then 0.9 else 0.8) := by
  refine ⟨?_, ?_, ?_, ?_, ?_, ?_, ?_, ?_, ?_, ?_, rfl⟩
  · intro h
    rw [determine_confidence_level_eq_bandAt, determine_confidence_level_eq_bandAt]
    exact bandAt_mono h
  · intro h
    rw [quality_confidence_level_eq_bandAt, quality_confidence_level_eq_bandAt]
    exact bandAt_mono h
  · rw [determine_confidence_level_eq_bandAt]
    exact bandAt_very_high_iff (by norm_num) (by norm_num)
  · rw [determine_confidence_level_eq_bandAt]
    exact bandAt_high_iff (by norm_num) (by norm_num)
  · rw [determine_confidence_level_eq_bandAt]
    exact bandAt_medium_iff (by norm_num) (by norm_num)
  · rw [determine_confidence_level_eq_bandAt]
    exact bandAt_low_iff (by norm_num) (by norm_num)
  · rw [quality_confidence_level_eq_bandAt]
    exact bandAt_very_high_iff (by norm_num) (by norm_num)
  · rw [quality_confidence_level_eq_bandAt]
    exact bandAt_high_iff (by norm_num) (by norm_num)
  · rw [quality_confidence_level_eq_bandAt]
    exact bandAt_medium_iff (by norm_num) (by norm_num)
  · rw [quality_confidence_level_eq_bandAt]
    exact bandAt_low_iff (by norm_num) (by norm_num)

/-- C8 witness: concrete instances of the monotonicity implications and
of a threshold characterization. -/
theorem confidence_tier_witness :
    (determine_confidence_level 0.4 0.4).ord ≤ (determine_confidence_level 0.9 0.9).ord ∧
    (quality_confidence_level 60 3).ord ≤ (quality_confidence_level 90 3).ord ∧
    determine_confidence_level 0.9 0.9 = .very_high := by
  have h := confidence_tier_spec 0.4 0.4 0.9 0.9 60 90 3
  refine ⟨h.1 (by norm_num), h.2.1 ?_, (confidence_tier_spec 0.9 0.9 0 0 0 0 0).2.2.1.mpr (by norm_num)⟩
  have hd : depthFactor 3 = 0.8 := rfl
  rw [hd]
  norm_num

/-- C9: the explanation synthesizer is a pure function of the four
scores: its output is exactly the four dimension fragments in the fixed
order skill, experience, availability, overall, joined by single spaces,
with each fragment selected from its 3-tier template set at the
dimension-local thresholds 0.8 and 0.6; equal inputs give identical
text. -/
theorem generate_explanation_spec (s e a c s2 e2 a2 c2 : ℚ) :
    generate_explanation s e a c =
      skillFragment s ++ " " ++ experienceFragment e ++ " " ++ availabilityFragment a ++
        " " ++ overallFragment c ∧
    (s = s2 → e = e2 → a = a2 → c = c2 →
      generate_explanation s e a c = generate_explanation s2 e2 a2 c2) ∧
    (0.8 ≤ s →
      skillFragment s = "Excellent skill match with strong expertise in required technologies.") ∧
    (0.6 ≤ s → s < 0.8 →
      skillFragment s = "Good skill alignment with most required technologies covered.") ∧
    (s < 0.6 →
      skillFragment s = "Partial skill match - may require additional learning or collaboration.") ∧
    (0.8 ≤ e →
      experienceFragment e = "Experience level perfectly matches bounty difficulty.") ∧
    (0.6 ≤ e → e < 0.8 →
      experienceFragment e = "Suitable experience level for this bounty complexity.") ∧
    (e < 0.6 →
      experienceFragment e = "Experience level may not fully align with bounty requirements.") ∧
    (0.8 ≤ a →
      availabilityFragment a = "Excellent availability to meet project timeline.") ∧
    (0.6 ≤ a → a < 0.8 →
      availabilityFragment a = "Adequate availability with manageable timeline.") ∧
    (a < 0.6 →
      availabilityFragment a = "Limited availability may require timeline adjustments.") ∧
    (0.8 ≤ c →
      overallFragment c = "Highly recommended match with strong success potential.") ∧
    (0.6 ≤ c → c < 0.8 →
      overallFragment c = "Good match with reasonable success probability.") ∧
    (c < 0.6 →
      overallFragment c = "Consider alternative matches or provide additional support.") := by
  refine ⟨rfl, ?_, fun h => tierSel_hi _ _ _ h, fun h1 h2 => tierSel_mid _ _ _ h1 h2,
    fun h => tierSel_lo _ _ _ h, fun h => tierSel_hi _ _ _ h,
    fun h1 h2 => tierSel_mid _ _ _ h1 h2, fun h => tierSel_lo _ _ _ h,
    fun h => tierSel_hi _ _ _ h, fun h1 h2 => tierSel_mid _ _ _ h1 h2,
    fun h => tierSel_lo _ _ _ h, fun h => tierSel_hi _ _ _ h,
    fun h1 h2 => tierSel_mid _ _ _ h1 h2, fun h => tierSel_lo _ _ _ h⟩
  intro h1 h2 h3 h4
  rw [h1, h2, h3, h4]

/-- C9 witness: concrete scores select the expected fragments and equal
inputs reproduce the same text. -/
theorem generate_explanation_witness :
    generate_explanation 1 0.7 0.5 1 = generate_explanation 1 0.7 0.5 1 ∧
    skillFragment 1 = "Excellent skill match with strong expertise in required technologies." ∧
    experienceFragment 0.7 = "Suitable experience level for this bounty complexity." ∧
    availabilityFragment 0.5 = "Limited availability may require timeline adjustments." := by
  have h := generate_explanation_spec 1 0.7 0.5 1 1 0.7 0.5 1
  exact ⟨h.2.1 rfl rfl rfl rfl, h.2.2.1 (by norm_num),
    h.2.2.2.2.2.2.1 (by norm_num) (by norm_num), h.2.2.2.2.2.2.2.2.2.2.1 (by norm_num)⟩

/-- C10: the availability scorer's guards test Python falsiness, so it
returns exactly 0.5 when either hours input is `None` or `0`; when both
guards pass, the two divisors (`weeks_available` and
`required_hours_per_week`) are provably nonzero, so no division by zero
occurs and the scorer is total on all optional-integer inputs. -/
theorem availability_guard_spec (dh eh : Option ℤ) (days ab : ℤ) :
    ((dh = none ∨ dh = some 0 ∨ eh = none ∨ eh = some 0) →
      AvailabilityMatchingTool.run dh eh days ab = 0.5) ∧
    (optFalsy dh = false → optFalsy eh = false →
      max 1 ((days : ℚ) / 7) ≠ 0 ∧
      ((eh.getD 0 : ℤ) : ℚ) / max 1 ((days : ℚ) / 7) ≠ 0) := by
  constructor
  · intro h
    rcases h with h | h | h | h <;>
      simp [AvailabilityMatchingTool.run, optFalsy, h]
  · intro hd he
    have hw : (0 : ℚ) < max 1 ((days : ℚ) / 7) :=
      lt_of_lt_of_le one_pos (le_max_left _ _)
    have heh : (eh.getD 0 : ℤ) ≠ 0 := by
      intro hz
      rw [optFalsy, hz] at he
      simp at he
    have hehq : ((eh.getD 0 : ℤ) : ℚ) ≠ 0 := Int.cast_ne_zero.mpr heh
    exact ⟨ne_of_gt hw, div_ne_zero hehq (ne_of_gt hw)⟩

/-- C10 witness: zero estimated hours hit the falsiness guard, and with
both guards passing the divisors are nonzero at a concrete input. -/
theorem availability_guard_witness :
    AvailabilityMatchingTool.run (some 20) (some 0) 30 1 = 0.5 ∧
    ((( (some 120 : Option ℤ).getD 0 : ℤ) : ℚ) / max 1 ((30 : ℚ) / 7) ≠ 0) := by
  refine ⟨(availability_guard_spec (some 20) (some 0) 30 1).1 (Or.inr (Or.inr (Or.inr rfl))),
    ((availability_guard_spec (some 20) (some 120) 30 1).2 rfl rfl).2⟩

/-- C5: the quality metrics aggregator computes the four derived scores
by the fixed linear penalty formulas, pins test coverage at 70, and takes
the overall score as the weighted sum with weights
0.25/0.20/0.20/0.20/0.15 (which sum to exactly 1); all-zero issue counts
with zero complexity give
`overall = 0.25·100 + 0.20·100 + 0.20·100 + doc·0.20 + 0.15·70`. -/
theorem quality_metrics_spec (sec style : ℕ) (comp doc : ℚ) :
    (calculate_quality_metrics (some sec) (some style) (some comp) (some doc)).security_score =
      max 0 (100 - 20 * (sec : ℚ)) ∧
    (calculate_quality_metrics (some sec) (some style) (some comp) (some doc)).performance_score =
      max 0 (100 - 10 * comp) ∧
    (calculate_quality_metrics (some sec) (some style) (some comp)
        (some doc)).maintainability_score =
      max 0 (100 - 8 * comp - 5 * (style : ℚ)) ∧
    (calculate_quality_metrics (some sec) (some style) (some comp) (some doc)).test_coverage_score =
      70 ∧
    (calculate_quality_metrics (some sec) (some style) (some comp) (some doc)).documentation_score =
      doc ∧
    (calculate_quality_metrics (some sec) (some style) (some comp) (some doc)).overall_score =
      0.25 * (calculate_quality_metrics (some sec) (some style) (some comp)
          (some doc)).security_score +
        0.20 * (calculate_quality_metrics (some sec) (some style) (some comp)
          (some doc)).performance_score +
        0.20 * (calculate_quality_metrics (some sec) (some style) (some comp)
          (some doc)).maintainability_score +
        0.20 * doc +
        0.15 * 70 ∧
    (0.25 + 0.20 + 0.20 + 0.20 + 0.15 : ℚ) = 1 ∧
    (calculate_quality_metrics (some 0) (some 0) (some 0) (some doc)).overall_score =
      0.25 * 100 + 0.20 * 100 + 0.20 * 100 + doc * 0.20 + 0.15 * 70 := by
  refine ⟨?_, ?_, ?_, rfl, rfl, ?_, by norm_num, ?_⟩
  · simp only [calculate_quality_metrics, Option.getD_some]
    ring_nf
  · simp only [calculate_quality_metrics, Option.getD_some]
    ring_nf
  · simp only [calculate_quality_metrics, Option.getD_some]
    ring_nf
  · simp only [calculate_quality_metrics, Option.getD_some]
    ring
  · simp only [calculate_quality_metrics, Option.getD_some]
    norm_num

theorem foldl_commentStep (lines : List String) (a b : ℕ) :
    lines.foldl commentStep (a, b) =
      (a + lines.countP (fun l => classifyLine l == .comment),
        b + lines.countP (fun l => classifyLine l == .code)) := by
  induction lines generalizing a b with
  | nil => simp
  | cons l ls ih =>
      cases h : classifyLine l <;>
        simp [commentStep, h, List.countP_cons, ih] <;> omega

/-- C4 counterexample: a text whose single non-blank line is a comment —
`["# x"]` — returns ratio 0 through the `code_lines == 0` guard, while
the claimed formula (guard only at zero non-blank lines) yields
1/(1+0) = 1; so the guard does not apply "only" at zero non-blank
lines. -/
theorem comment_ratio_counterexample :
    calculate_comment_ratio ["# x"] = 0 ∧
    commentRatioSpec ["# x"] = 1 ∧
    (0 : ℚ) ≠ 1 := by
  have h2 : classifyLine "# x" = .comment := by decide
  refine ⟨?_, ?_, by norm_num⟩
  · simp [calculate_comment_ratio, List.foldl, commentStep, h2]
  · simp [commentRatioSpec, List.countP_cons, h2]

/-- C4 (amended): the comment ratio equals
`comment_lines / (comment_lines + code_lines)` with blank lines skipped
and comment lines recognized by the trimmed-marker / docstring-delimiter
test, except that the zero guard fires whenever there are zero *code*
(non-blank, non-comment) lines — including all-comment texts — not only
at zero non-blank lines; the medium documentation issue is flagged
exactly when the ratio is below 0.1. -/
theorem comment_ratio_spec (lines : List String) (readme : String) (code : String) :
    calculate_comment_ratio lines =
      (if lines.countP (fun l => classifyLine l == .code) = 0 then 0
        else ((lines.countP (fun l => classifyLine l == .comment) : ℚ)) /
          ((lines.countP (fun l => classifyLine l == .comment) : ℚ) +
            (lines.countP (fun l => classifyLine l == .code) : ℚ))) ∧
    (lowCommentIssue ∈ (documentation_run lines readme).issues ↔
      calculate_comment_ratio lines < 0.1) ∧
    calculate_comment_ratio_of code = calculate_comment_ratio (splitLines code) := by
  refine ⟨?_, ?_, rfl⟩
  · simp only [calculate_comment_ratio, foldl_commentStep, Nat.zero_add]
  · simp only [documentation_run]
    by_cases h : calculate_comment_ratio lines < 0.1
    · simp [h]
    · simp [h]

/-- C2 counterexample: the source `"eval("` does not parse (Python's
`ast.parse` raises `SyntaxError` at line 1 on it), and on the failure
path the returned issue list is exactly the critical syntax issue — the
dynamic-evaluation security issue is absent even though the text contains
an `eval(` call, because all four pattern scans sit inside the `try`
block after `ast.parse` and are skipped on a parse failure. -/
theorem analyze_python_counterexample :
    hasSub "eval(" "eval(" = true ∧
    (analyze_python_code "eval(" (.failed 1 "unexpected EOF while parsing")
        false false).issues = [syntaxIssue 1 "unexpected EOF while parsing"] ∧
    evalIssue ∉ (analyze_python_code "eval(" (.failed 1 "unexpected EOF while parsing")
        false false).issues ∧
    (analyze_python_code "eval(" (.failed 1 "unexpected EOF while parsing")
        false false).complexity_score = 10 := by
  refine ⟨rfl, rfl, ?_, rfl⟩
  intro h
  rw [show (analyze_python_code "eval(" (.failed 1 "unexpected EOF while parsing")
      false false).issues = [syntaxIssue 1 "unexpected EOF while parsing"] from rfl] at h
  exact absurd (List.mem_singleton.mp h) (by decide)

/-- C2 (amended): the Python analyzer's four security pattern scans run
only when the source parses.  On a parse failure the returned issue list
is exactly the single critical syntax issue carrying the parse failure's
line number, with complexity_score forced to 10; on a successful parse
each scan contributes its issue exactly when its pattern matches, and
complexity is `min(10, (1 + branch_count)/5)`. -/
theorem analyze_python_spec (code msg : String) (lineno branch_count : ℕ)
    (sql secret : Bool) :
    (analyze_python_code code (.failed lineno msg) sql secret).issues =
      [syntaxIssue lineno msg] ∧
    (analyze_python_code code (.failed lineno msg) sql secret).complexity_score = 10 ∧
    (syntaxIssue lineno msg).itype = "syntax" ∧
    (syntaxIssue lineno msg).severity = "critical" ∧
    (syntaxIssue lineno msg).line_number = some lineno ∧
    (analyze_python_code code (.ok branch_count) sql secret).complexity_score =
      min 10 ((1 + (branch_count : ℚ)) / 5) ∧
    (evalIssue ∈ (analyze_python_code code (.ok branch_count) sql secret).issues ↔
      hasSub code "eval(" = true) ∧
    (execIssue ∈ (analyze_python_code code (.ok branch_count) sql secret).issues ↔
      hasSub code "exec(" = true) ∧
    (sqlInjectionIssue ∈ (analyze_python_code code (.ok branch_count) sql secret).issues ↔
      sql = true) ∧
    (hardcodedSecretIssue ∈ (analyze_python_code code (.ok branch_count) sql secret).issues ↔
      secret = true) := by
  have hne1 : evalIssue ≠ execIssue := by decide
  have hne2 : evalIssue ≠ sqlInjectionIssue := by decide
  have hne3 : evalIssue ≠ hardcodedSecretIssue := by decide
  have hne4 : execIssue ≠ evalIssue := by decide
  have hne5 : execIssue ≠ sqlInjectionIssue := by decide
  have hne6 : execIssue ≠ hardcodedSecretIssue := by decide
  have hne7 : sqlInjectionIssue ≠ evalIssue := by decide
  have hne8 : sqlInjectionIssue ≠ execIssue := by decide
  have hne9 : sqlInjectionIssue ≠ hardcodedSecretIssue := by decide
  have hne10 : hardcodedSecretIssue ≠ evalIssue := by decide
  have hne11 : hardcodedSecretIssue ≠ execIssue := by decide
  have hne12 : hardcodedSecretIssue ≠ sqlInjectionIssue := by decide
  refine ⟨rfl, rfl, rfl, rfl, rfl, rfl, ?_, ?_, ?_, ?_⟩ <;>
    cases h1 : hasSub code "eval(" <;> cases h2 : hasSub code "exec(" <;>
      cases sql <;> cases secret <;>
      simp_all [analyze_python_code]

theorem filter_orderedInsert_pos (p : MatchEntry → Bool) (a : MatchEntry)
    (l : List MatchEntry) (hpa : p a = true)
    (h : ∀ b, ¬ scoreGE a b → p b = false) :
    (List.orderedInsert scoreGE a l).filter p = a :: l.filter p := by
  induction l with
  | nil => simp [List.orderedInsert, hpa]
  | cons b bs ih =>
      by_cases hab : scoreGE a b
      · simp only [List.orderedInsert, if_pos hab]
        simp [List.filter_cons, hpa]
      · simp only [List.orderedInsert, if_neg hab]
        have hpb : p b = false := h b hab
        simp [List.filter_cons, hpb, ih]

theorem filter_orderedInsert_neg (p : MatchEntry → Bool) (a : MatchEntry)
    (l : List MatchEntry) (hpa : p a = false) :
    (List.orderedInsert scoreGE a l).filter p = l.filter p := by
  induction l with
  | nil => simp [List.orderedInsert, hpa]
  | cons b bs ih =>
      by_cases hab : scoreGE a b
      · simp only [List.orderedInsert, if_pos hab]
        simp [List.filter_cons, hpa]
      · simp only [List.orderedInsert, if_neg hab]
        simp [List.filter_cons, ih]

/-- Stability of the descending sort: the subsequence of entries at any
fixed compatibility score is unchanged, i.e. ties keep their original
relative order. -/
theorem filter_sortMatchesDesc_stable (l : List MatchEntry) (s : ℚ) :
    (sortMatchesDesc l).filter (fun m => decide (m.compatibility_score = s)) =
      l.filter (fun m => decide (m.compatibility_score = s)) := by
  induction l with
  | nil => rfl
  | cons a as ih =>
      show (List.orderedInsert scoreGE a
          (List.insertionSort scoreGE as)).filter _ = _
      by_cases hpa : a.compatibility_score = s
      · rw [filter_orderedInsert_pos _ a _ (by simp [hpa]) ?_]
        · rw [show List.insertionSort scoreGE as = sortMatchesDesc as from rfl, ih]
          simp [List.filter_cons, hpa]
        · intro b hb
          refine decide_eq_false ?_
          intro he
          exact hb (le_of_eq (he.trans hpa.symm))
      · rw [filter_orderedInsert_neg _ a _ (by simp [hpa]),
          show List.insertionSort scoreGE as = sortMatchesDesc as from rfl, ih]
        simp [List.filter_cons, hpa]

/-- C1: the ranking pipeline keeps exactly the candidates at or above the
caller-supplied minimum score, sorts them descending by compatibility
score with a stable sort (the subsequence at any fixed score — i.e. the
relative order of ties — is preserved from the candidate pool), and
truncates to the caller-supplied limit; every returned entry scores at
least `min_score` and at most `limit` entries are returned.  The request
schema supplies the defaults (limit 10, minimum score 0.5) and accepts
limits exactly in [1, 50]. -/
theorem rank_candidates_spec (pool : List MatchEntry) (min_score : ℚ) (limit : ℕ) :
    (∀ m ∈ rankCandidates pool min_score limit, min_score ≤ m.compatibility_score) ∧
    (rankCandidates pool min_score limit).length ≤ limit ∧
    List.Sorted scoreGE (rankCandidates pool min_score limit) ∧
    rankCandidates pool min_score limit =
      (sortMatchesDesc (pool.filter
        (fun m => min_score ≤ m.compatibility_score))).take limit ∧
    List.Perm
      (sortMatchesDesc (pool.filter (fun m => min_score ≤ m.compatibility_score)))
      (pool.filter (fun m => min_score ≤ m.compatibility_score)) ∧
    (∀ s : ℚ,
      (sortMatchesDesc (pool.filter
          (fun m => min_score ≤ m.compatibility_score))).filter
          (fun m => decide (m.compatibility_score = s)) =
        (pool.filter (fun m => min_score ≤ m.compatibility_score)).filter
          (fun m => decide (m.compatibility_score = s))) ∧
    BountyMatchRequest.limitDefault = 10 ∧
    BountyMatchRequest.minScoreDefault = 0.5 ∧
    (∀ l : ℤ, BountyMatchRequest.limitValid l ↔ 1 ≤ l ∧ l ≤ 50) := by
  refine ⟨?_, ?_, ?_, rfl, List.perm_insertionSort scoreGE _,
    fun s => filter_sortMatchesDesc_stable _ s, rfl, rfl, fun _ => Iff.rfl⟩
  · intro m hm
    have h1 : m ∈ sortMatchesDesc (pool.filter
        (fun m => min_score ≤ m.compatibility_score)) :=
      List.mem_of_mem_take hm
    have h2 : m ∈ pool.filter (fun m => min_score ≤ m.compatibility_score) :=
      (List.perm_insertionSort scoreGE _).mem_iff.mp h1
    exact of_decide_eq_true (List.mem_filter.mp h2).2
  · calc (rankCandidates pool min_score limit).length
        = min limit (sortMatchesDesc (pool.filter
            (fun m => min_score ≤ m.compatibility_score))).length := by
          rw [rankCandidates]
          exact List.length_take _ _
      _ ≤ limit := min_le_left _ _
  · have hs : List.Sorted scoreGE (sortMatchesDesc (pool.filter
        (fun m => min_score ≤ m.compatibility_score))) :=
      List.sorted_insertionSort scoreGE _
    exact hs.sublist (List.take_sublist _ _)

/-- C1 witness: a one-element pool at minimum 0 and limit 1 passes
through the pipeline, and the returned entry's score is at least the
minimum. -/
theorem rank_candidates_witness :
    (0 : ℚ) ≤ (MatchEntry.mk "0xdev" 1 1).compatibility_score ∧
    (rankCandidates [MatchEntry.mk "0xdev" 1 1] 0 1).length ≤ 1 := by
  have hq : ((0 : ℚ) ≤ (1 : ℚ)) := by norm_num
  have hfil : ([MatchEntry.mk "0xdev" 1 1].filter
      (fun m => (0 : ℚ) ≤ m.compatibility_score)) = [MatchEntry.mk "0xdev" 1 1] := by
    simp [List.filter, hq]
  have hout : rankCandidates [MatchEntry.mk "0xdev" 1 1] 0 1 =
      [MatchEntry.mk "0xdev" 1 1] := by
    rw [rankCandidates, hfil]
    rfl
  have h := rank_candidates_spec [MatchEntry.mk "0xdev" 1 1] 0 1
  refine ⟨h.1 (MatchEntry.mk "0xdev" 1 1) ?_, h.2.1⟩
  rw [hout]
  exact List.mem_singleton.mpr rfl

end DeveloperDao
